import Mathlib

/-!
Shallow embedding of the simple-timer library (src/timer.hpp).

Modelling conventions:
* `double` values are modelled as exact rationals (ℚ); a floating computation
  is modelled by the exact rational computation, so a floating round-off is
  modelled as zero.
* `std::chrono::duration<Rep, std::ratio<Num, Den>>` is modelled by its exact
  count; `std::chrono::duration_cast` multiplies the count by the conversion
  factor `ratio_divide<FromPeriod, ToPeriod>` and, for an integer target
  representation, applies the C++ float-to-int conversion, which truncates
  toward zero.
* The canonical `timer::Duration` (seconds, double precision) is a ℚ.
* The control flow of `timer::time` (clock reads in the `Timer` constructor
  and destructor, invocation of the callable, the unconditional write of the
  slot in the destructor, construction of the result record) is modelled by a
  state-passing interpreter that also emits an event trace, so that the
  sequencing of clock reads, callable invocation and slot write is visible in
  the order of the trace.
-/

namespace timer

/-- The C++ float-to-integer conversion: truncation toward zero
(`static_cast<int64_t>(double)` per [conv.fpint]), modelled on exact
rationals: floor for non-negative values, ceiling for negative values. -/
def cppTruncToInt (q : ℚ) : ℤ :=
  if 0 ≤ q then ⌊q⌋ else ⌈q⌉

/-- The precision-preserving unit catalogue of `timer.hpp` lines 66-78:
`std::chrono::duration<double, ratio>` aliases. -/
inductive PrecUnit
  | picoseconds
  | nanoseconds
  | microseconds
  | milliseconds
  | seconds
  | minutes
  | hours
  | days
  | weeks
  | years
  | decades
  | centuries
  | millennia
deriving DecidableEq

/-- Numerator of the `std::ratio` of each precision-preserving unit,
exactly as written in the source. -/
def precNum : PrecUnit → ℤ
  | .picoseconds => 1
  | .nanoseconds => 1
  | .microseconds => 1
  | .milliseconds => 1
  | .seconds => 1
  | .minutes => 60
  | .hours => 3600
  | .days => 86400
  | .weeks => 604800
  | .years => 31556952
  | .decades => 315569520
  | .centuries => 3155695200
  | .millennia => 31556952000

/-- Denominator of the `std::ratio` of each precision-preserving unit,
exactly as written in the source. -/
def precDen : PrecUnit → ℤ
  | .picoseconds => 1000000000000
  | .nanoseconds => 1000000000
  | .microseconds => 1000000
  | .milliseconds => 1000
  | _ => 1

/-- Scale of a precision-preserving unit in seconds per unit:
the value of its `std::ratio`. -/
def precScale (u : PrecUnit) : ℚ := (precNum u : ℚ) / (precDen u : ℚ)

/-- The integer-tick catalogue: the `std::chrono` integer-representation
units usable with the library (nanoseconds … hours), with their standard
ratios. -/
inductive TickUnit
  | nanoseconds
  | microseconds
  | milliseconds
  | seconds
  | minutes
  | hours
deriving DecidableEq

/-- Numerator of the `std::ratio` of each integer-tick unit. -/
def tickNum : TickUnit → ℤ
  | .nanoseconds => 1
  | .microseconds => 1
  | .milliseconds => 1
  | .seconds => 1
  | .minutes => 60
  | .hours => 3600

/-- Denominator of the `std::ratio` of each integer-tick unit. -/
def tickDen : TickUnit → ℤ
  | .nanoseconds => 1000000000
  | .microseconds => 1000000
  | .milliseconds => 1000
  | _ => 1

/-- Scale of an integer-tick unit in seconds per unit. -/
def tickScale (u : TickUnit) : ℚ := (tickNum u : ℚ) / (tickDen u : ℚ)

/-- `std::chrono::duration_cast` from the canonical `Duration`
(double seconds, period 1/1) to `duration<double, period of u>`:
the count is multiplied by the conversion factor
`ratio_divide<ratio<1,1>, period of u> = period_den / period_num`,
computed in double (modelled exactly). -/
def durationCastPrec (d : ℚ) (u : PrecUnit) : ℚ :=
  d * (precDen u : ℚ) / (precNum u : ℚ)

/-- `std::chrono::duration_cast` from the canonical `Duration` to the
integer-tick `duration<int64_t, period of u>`: the count is multiplied by
the conversion factor in the common representation (double), then converted
to `int64_t`, truncating toward zero. -/
def durationCastTick (d : ℚ) (u : TickUnit) : ℤ :=
  cppTruncToInt (d * (tickDen u : ℚ) / (tickNum u : ℚ))

/-- The representation stored inside a `TimeView`'s duration: either a
floating count (double, modelled exactly) or an integer tick count. -/
inductive CountRep
  | ofFloat (x : ℚ)
  | ofInt (n : ℤ)
deriving DecidableEq

/-- `timer::TimeView<ReturnDuration>`: a thin façade holding the duration
in the view's unit. The unit's representation (floating or integer tick) is
carried by `CountRep`. -/
structure TimeView where
  count : CountRep
deriving DecidableEq

/-- The kind of target type `Rep` passed to `TimeView::as<Rep>()`:
the view's own duration type, a floating-point type, an integral type,
or anything else. -/
inductive AsTarget
  | sameDuration
  | floatingTy
  | integralTy
  | otherTy
deriving DecidableEq

/-- Outcome of `TimeView::as<Rep>()`: the duration returned unchanged, a
floating scalar, an integral scalar, or the `static_assert` build-time
rejection. -/
inductive AsResult
  | unchangedDuration (c : CountRep)
  | floatVal (x : ℚ)
  | intVal (n : ℤ)
  | buildError
deriving DecidableEq

/-- The numeric value of a stored count when converted to a floating type
(`static_cast<double>`): an integer tick converts exactly in the modelled
range, a floating count is returned as is. -/
def CountRep.toFloat : CountRep → ℚ
  | .ofFloat x => x
  | .ofInt n => (n : ℚ)

/-- The numeric value of a stored count when converted to an integral type
(`static_cast<int64_t>`): exact for an integer tick, truncation toward zero
for a floating count. -/
def CountRep.toInt : CountRep → ℤ
  | .ofFloat x => cppTruncToInt x
  | .ofInt n => n

/-- `TimeView::as<Rep>()` (timer.hpp lines 132-142): if `Rep` is the view's
duration type, return the duration; else if `Rep` is floating or integral,
`static_cast<Rep>(duration.count())`; anything else fails the
`static_assert`. -/
def TimeView.as (v : TimeView) : AsTarget → AsResult
  | .sameDuration => .unchangedDuration v.count
  | .floatingTy => .floatVal v.count.toFloat
  | .integralTy => .intVal v.count.toInt
  | .otherTy => .buildError

/-- `timer::TimeResult<T>` for non-void `T`: the captured function result
and the canonical `Duration` (double seconds, modelled as ℚ). -/
structure TimeResult (α : Type) where
  functionResult : α
  duration : ℚ
deriving DecidableEq

/-- `timer::TimeResult<void>`: the specialisation holding only the
`Duration`. -/
structure TimeResultVoid where
  duration : ℚ
deriving DecidableEq

/-- `TimeResult::getDurationView<U>()` for a precision-preserving unit `U`:
`TimeView{duration_cast<U>(duration)}`, a floating count. -/
def TimeResult.getDurationViewPrec (r : TimeResult α) (u : PrecUnit) : TimeView :=
  ⟨.ofFloat (durationCastPrec r.duration u)⟩

/-- `TimeResult::getDurationView<U>()` for an integer-tick unit `U`:
`TimeView{duration_cast<U>(duration)}`, an integer count. -/
def TimeResult.getDurationViewTick (r : TimeResult α) (u : TickUnit) : TimeView :=
  ⟨.ofInt (durationCastTick r.duration u)⟩

/-- `TimeResult<void>::getDurationView<U>()` for a precision-preserving
unit. -/
def TimeResultVoid.getDurationViewPrec (r : TimeResultVoid) (u : PrecUnit) : TimeView :=
  ⟨.ofFloat (durationCastPrec r.duration u)⟩

/-- `TimeResult<void>::getDurationView<U>()` for an integer-tick unit. -/
def TimeResultVoid.getDurationViewTick (r : TimeResultVoid) (u : TickUnit) : TimeView :=
  ⟨.ofInt (durationCastTick r.duration u)⟩

/-- How the captured result is placed into the record:
`static_cast<ResultType&&>(result)` is a move; a plain lvalue would be a
copy. -/
inductive PlaceMode
  | byMove
  | byCopy
deriving DecidableEq

/-- Observable events of one run of `timer::time`, in program order:
a clock read (with the value read), the invocation of the callable, its
normal return or raised failure, the destructor's write of end-minus-start
into the `Duration` slot, and the placement of the captured result into the
record. -/
inductive Ev
  | readClock (t : ℚ)
  | invoke
  | returned
  | raised
  | writeSlot (d : ℚ)
  | placeResult (m : PlaceMode)
deriving DecidableEq

/-- Interpreter state for one run: the clock (the value returned by the
k-th clock read), the number of reads performed so far, the `Duration` slot
the `Timer` points at (`none` models the default-initialised, unwritten
local `Duration`), and the event trace so far. -/
structure TState where
  clock : ℕ → ℚ
  reads : ℕ
  slot : Option ℚ
  trace : List Ev

/-- A fresh state for a single call to `timer::time`: no reads yet, the
local `Duration` slot not yet written, empty trace. -/
def TState.fresh (c : ℕ → ℚ) : TState :=
  ⟨c, 0, none, []⟩

/-- Append an event to the trace. -/
def TState.emit (s : TState) (e : Ev) : TState :=
  { s with trace := s.trace ++ [e] }

/-- Read the configured clock (`Clock::now()` cast to the canonical
`Duration`, or `MPI_Wtime()` in external-wall-clock mode): yields the next
clock value and records the read in the trace. -/
def clockNow (s : TState) : ℚ × TState :=
  (s.clock s.reads,
    { s with reads := s.reads + 1,
             trace := s.trace ++ [Ev.readClock (s.clock s.reads)] })

/-- `Timer::Timer(Duration*)` (timer.hpp lines 359-365): records the
current time point as the start point. Returns the captured start point. -/
def timerStart (s : TState) : ℚ × TState :=
  clockNow s

/-- `Timer::~Timer()` (timer.hpp lines 340-351): reads the current time
point, subtracts the start point and writes the result into the slot,
unconditionally. -/
def timerFinish (start : ℚ) (s : TState) : TState :=
  let p := clockNow s
  { p.2 with slot := some (p.1 - start),
             trace := p.2.trace ++ [Ev.writeSlot (p.1 - start)] }

/-- The user's callable, modelled by its outcome: a returned value or a
raised failure. -/
def Callable (ε α : Type) : Type := Except ε α

/-- `timer::time` for a value-returning callable (timer.hpp lines 390-407):
declares a local `Duration`, constructs a `Timer` on it inside an inner
block (reading the start point), invokes the callable; when the callable
returns, the inner block ends, the `Timer` destructor writes the slot, and
the record is built from the moved result and the written slot; when the
callable raises, the destructor still writes the slot during unwinding and
the failure propagates (no record). -/
def time (f : Callable ε α) (s0 : TState) :
    Except ε (TimeResult α) × TState :=
  let s1 := { s0 with slot := none }
  let p := timerStart s1
  let s3 := p.2.emit .invoke
  match f with
  | .ok a =>
    let s4 := s3.emit .returned
    let s5 := timerFinish p.1 s4
    let s6 := s5.emit (.placeResult .byMove)
    (.ok ⟨a, s5.slot.getD 0⟩, s6)
  | .error e =>
    let s4 := s3.emit .raised
    let s5 := timerFinish p.1 s4
    (.error e, s5)

/-- `timer::time` for a void callable (timer.hpp lines 409-417): value-
initialises a `TimeResult<void>` (duration zero), constructs a `Timer` on
the record's `Duration` slot, invokes the callable, lets the block end
(destructor writes the slot), and returns the record; when the callable
raises, the destructor still writes the slot and the failure propagates
(the partially-built record is destroyed, not returned). -/
def timeVoid (f : Callable ε Unit) (s0 : TState) :
    Except ε TimeResultVoid × TState :=
  let s1 := { s0 with slot := some 0 }
  let p := timerStart s1
  let s3 := p.2.emit .invoke
  match f with
  | .ok _ =>
    let s4 := s3.emit .returned
    let s5 := timerFinish p.1 s4
    (.ok ⟨s5.slot.getD 0⟩, s5)
  | .error e =>
    let s4 := s3.emit .raised
    let s5 := timerFinish p.1 s4
    (.error e, s5)

/-- The trace event marking how the callable finished. -/
def doneEv : Callable ε α → Ev
  | .ok _ => .returned
  | .error _ => .raised

/-- The record-construction events of the non-void `time`: present (a move
placement) exactly when the callable returned normally. -/
def placeEvs : Callable ε α → List Ev
  | .ok _ => [Ev.placeResult .byMove]
  | .error _ => []

/-- C++ member access level. -/
inductive Access
  | pub
  | priv
deriving DecidableEq

/-- A user-declared copy or move constructor: its access and whether it is
declared as deleted. -/
structure SpecialMember where
  access : Access
  deleted : Bool
deriving DecidableEq

/-- The functions granted friendship by the `Timer` class: the two
overloads of `timer::time`. -/
inductive FriendRef
  | timeNonVoidFn
  | timeVoidFn
deriving DecidableEq

/-- The declaration-level facts about a C++ class that determine its
constructibility properties: whether a destructor is user-declared, the
access of each user-declared ordinary constructor, the user-declared copy
and move constructors (if any), whether all non-static data members and
bases are copyable, and the friend declarations. -/
structure CppClassDecl where
  userDtor : Bool
  ctorAccess : List Access
  userCopy : Option SpecialMember
  userMove : Option SpecialMember
  membersCopyable : Bool
  friends : List FriendRef
deriving DecidableEq

/-- A default constructor is implicitly declared iff the class declares no
constructor at all. -/
def hasImplicitDefaultCtor (c : CppClassDecl) : Bool :=
  c.ctorAccess.isEmpty && c.userCopy.isNone && c.userMove.isNone

/-- Whether non-friend external code can create an object of the class
from scratch: an implicit default constructor (always public) or some
public user-declared constructor. -/
def externallyConstructible (c : CppClassDecl) : Bool :=
  hasImplicitDefaultCtor c || c.ctorAccess.contains Access.pub

/-- Whether the class is copy-constructible. If no copy constructor is
user-declared, one is implicitly declared, public and defaulted — a
user-declared destructor does not suppress it (it only deprecates it) —
and it is defined as deleted only if some member is not copyable. -/
def copyConstructible (c : CppClassDecl) : Bool :=
  match c.userCopy with
  | some m => !m.deleted && (m.access == Access.pub)
  | none => c.membersCopyable

/-- Whether an implicit move constructor is declared: only when the class
has no user-declared destructor, copy constructor or move constructor. -/
def implicitMoveDeclared (c : CppClassDecl) : Bool :=
  !c.userDtor && c.userCopy.isNone && c.userMove.isNone

/-- Whether the class is move-constructible in the `std::is_move_constructible`
sense: a usable move constructor, or — when none is declared, implicitly or
otherwise — an rvalue binding to the copy constructor's const reference. -/
def moveConstructible (c : CppClassDecl) : Bool :=
  match c.userMove with
  | some m => !m.deleted && (m.access == Access.pub)
  | none =>
    if implicitMoveDeclared c then c.membersCopyable
    else copyConstructible c

/-- The declaration facts of `timer::Timer` (timer.hpp lines 338-388): a
public user-declared destructor; one private constructor
`Timer(Duration*)`; no user-declared copy or move operations (none deleted);
members `TimePoint` and `Duration*`, both copyable; friendship granted to
the two `time` overloads. -/
def timerClassDecl : CppClassDecl :=
  { userDtor := true
    ctorAccess := [Access.priv]
    userCopy := none
    userMove := none
    membersCopyable := true
    friends := [FriendRef.timeNonVoidFn, FriendRef.timeVoidFn] }

lemma cppTruncToInt_of_nonneg {q : ℚ} (h : 0 ≤ q) : cppTruncToInt q = ⌊q⌋ := by
  simp [cppTruncToInt, h]

lemma cppTruncToInt_of_neg {q : ℚ} (h : q < 0) : cppTruncToInt q = ⌈q⌉ := by
  simp [cppTruncToInt, not_le.mpr h]

lemma precScale_pos (u : PrecUnit) : 0 < precScale u := by
  cases u <;> norm_num [precScale, precNum, precDen]

lemma tickScale_pos (u : TickUnit) : 0 < tickScale u := by
  cases u <;> norm_num [tickScale, tickNum, tickDen]

lemma durationCastPrec_eq_div (d : ℚ) (u : PrecUnit) :
    durationCastPrec d u = d / precScale u := by
  rw [durationCastPrec, precScale, div_div_eq_mul_div]

lemma durationCastTick_eq_div (d : ℚ) (u : TickUnit) :
    durationCastTick d u = cppTruncToInt (d / tickScale u) := by
  rw [durationCastTick, tickScale, div_div_eq_mul_div]

/-- Claim C2, counterexample: the decades unit's scale is not the
315 695 520 seconds per unit stated by the claim — the source declares
`std::ratio<315569520>`. -/
theorem decades_scale_not_spec_literal :
    precScale PrecUnit.decades ≠ (315695520 : ℚ) := by
  norm_num [precScale, precNum, precDen]

/-- Claim C2 (amended): the decades unit's scale is 315 569 520 seconds
per unit, and this equals 10 times the years scale of 31 556 952 seconds
per unit. -/
theorem decades_scale_ten_times_years :
    precScale PrecUnit.decades = 315569520 ∧
    precScale PrecUnit.years = 31556952 ∧
    precScale PrecUnit.decades = 10 * precScale PrecUnit.years := by
  refine ⟨?_, ?_, ?_⟩ <;> norm_num [precScale, precNum, precDen]

/-- Claim C3, counterexample: contrary to the claim, the centuries and
millennia scales ARE exactly 100 times and 1000 times the years scale —
31 556 952 × 100 = 3 155 695 200 and 31 556 952 × 1000 = 31 556 952 000,
the ratios declared in the source. -/
theorem centuries_millennia_are_year_multiples :
    precScale PrecUnit.centuries = 100 * precScale PrecUnit.years ∧
    precScale PrecUnit.millennia = 1000 * precScale PrecUnit.years := by
  constructor <;> norm_num [precScale, precNum, precDen]

/-- Claim C3 (amended): the centuries scale (3 155 695 200 s per unit) and
the millennia scale (31 556 952 000 s per unit) are exactly 100 times and
1000 times the years scale (31 556 952 s per unit), and equally 10 times
and 100 times the decades scale; no factor-of-10 discrepancy exists in the
catalogue. -/
theorem centuries_millennia_exact_scales :
    precScale PrecUnit.centuries = 3155695200 ∧
    precScale PrecUnit.millennia = 31556952000 ∧
    precScale PrecUnit.centuries = 100 * precScale PrecUnit.years ∧
    precScale PrecUnit.millennia = 1000 * precScale PrecUnit.years ∧
    precScale PrecUnit.centuries = 10 * precScale PrecUnit.decades ∧
    precScale PrecUnit.millennia = 100 * precScale PrecUnit.decades := by
  refine ⟨?_, ?_, ?_, ?_, ?_, ?_⟩ <;> norm_num [precScale, precNum, precDen]

/-- Claim C4: for every unit of the integer-tick catalogue and every
non-negative Duration held in a measurement record, extracting the
integer-tick view as a 64-bit integer yields exactly the floor of the
Duration divided by the unit's scale — conversion truncates toward zero,
which for non-negative values is the floor. -/
theorem tick_view_floor_of_nonneg {α : Type} (r : TimeResult α) (u : TickUnit)
    (h : 0 ≤ r.duration) :
    (r.getDurationViewTick u).as AsTarget.integralTy =
      AsResult.intVal ⌊r.duration / tickScale u⌋ := by
  show AsResult.intVal (durationCastTick r.duration u) = _
  rw [durationCastTick_eq_div,
    cppTruncToInt_of_nonneg (div_nonneg h (tickScale_pos u).le)]

/-- Witness for C4: a record with Duration 3/2 s viewed in milliseconds
gives exactly ⌊(3/2) / 0.001⌋ = 1500 whole milliseconds. -/
theorem tick_view_floor_of_nonneg_witness :
    ((0 : ℚ) ≤ (3/2 : ℚ)) ∧
    ((TimeResult.mk () (3/2) : TimeResult Unit).getDurationViewTick
        TickUnit.milliseconds).as AsTarget.integralTy =
      AsResult.intVal 1500 :=
  ⟨by norm_num,
    (tick_view_floor_of_nonneg (TimeResult.mk () (3/2)) TickUnit.milliseconds
      (by norm_num)).trans
      (by norm_num [tickScale, tickNum, tickDen])⟩

/-- Claim C10: for every negative Duration held in a measurement record
and every integer-tick unit, the integer extraction truncates toward zero
(the ceiling of the negative quotient) rather than taking the floor. -/
theorem tick_view_trunc_of_neg {α : Type} (r : TimeResult α) (u : TickUnit)
    (h : r.duration < 0) :
    (r.getDurationViewTick u).as AsTarget.integralTy =
      AsResult.intVal ⌈r.duration / tickScale u⌉ := by
  show AsResult.intVal (durationCastTick r.duration u) = _
  rw [durationCastTick_eq_div,
    cppTruncToInt_of_neg (div_neg_of_neg_of_pos h (tickScale_pos u))]

/-- Witness for C10: a Duration of −1.5 seconds viewed in integer seconds
yields −1 (truncation toward zero), not −2 (the floor). -/
theorem tick_view_trunc_of_neg_witness :
    ((-3/2 : ℚ) < 0) ∧
    ((TimeResult.mk () (-3/2) : TimeResult Unit).getDurationViewTick
        TickUnit.seconds).as AsTarget.integralTy =
      AsResult.intVal (-1) :=
  ⟨by norm_num,
    (tick_view_trunc_of_neg (TimeResult.mk () (-3/2)) TickUnit.seconds
      (by norm_num)).trans
      (by norm_num [tickScale, tickNum, tickDen, Int.ceil_neg])⟩

/-- Claim C9: extracting a precision-preserving view as a double yields
the Duration divided by the unit's scale, and for any two
precision-preserving units the extracted counts multiplied by their
respective scales agree — exactly, in this exact-rational model of double
arithmetic, hence within any bounded floating round-off. -/
theorem cross_unit_consistency {α : Type} (r : TimeResult α)
    (u1 u2 : PrecUnit) :
    (r.getDurationViewPrec u1).as AsTarget.floatingTy =
      AsResult.floatVal (durationCastPrec r.duration u1) ∧
    durationCastPrec r.duration u1 * precScale u1 =
      durationCastPrec r.duration u2 * precScale u2 := by
  refine ⟨rfl, ?_⟩
  rw [durationCastPrec_eq_div, durationCastPrec_eq_div,
    div_mul_cancel₀ _ (precScale_pos u1).ne',
    div_mul_cancel₀ _ (precScale_pos u2).ne']

/-- Claim C1: in every run of `timer::time` from a fresh state, for both
overloads, the trace shows the start clock read (read 0) strictly before
the invocation of the callable, the end clock read (read 1) strictly after
its return or failure, and the slot written — unconditionally, on both
exit paths — with exactly end-minus-start; the returned record (when the
callable returns a value) carries exactly that elapsed Duration. -/
theorem time_measures_exact_elapsed {ε α : Type} (c : ℕ → ℚ)
    (f : Callable ε α) (g : Callable ε Unit) :
    (time f (TState.fresh c)).2.trace =
      [Ev.readClock (c 0), Ev.invoke, doneEv f, Ev.readClock (c 1),
        Ev.writeSlot (c 1 - c 0)] ++ placeEvs f ∧
    (time f (TState.fresh c)).2.slot = some (c 1 - c 0) ∧
    (time f (TState.fresh c)).1 =
      Except.map (fun a => TimeResult.mk a (c 1 - c 0)) f ∧
    (timeVoid g (TState.fresh c)).2.trace =
      [Ev.readClock (c 0), Ev.invoke, doneEv g, Ev.readClock (c 1),
        Ev.writeSlot (c 1 - c 0)] ∧
    (timeVoid g (TState.fresh c)).2.slot = some (c 1 - c 0) ∧
    (timeVoid g (TState.fresh c)).1 =
      Except.map (fun _ => TimeResultVoid.mk (c 1 - c 0)) g := by
  cases f <;> cases g <;> exact ⟨rfl, rfl, rfl, rfl, rfl, rfl⟩

/-- Claim C5: `TimeView::as<R>()` returns the view's duration unchanged
when `R` is the underlying duration type, the count converted by standard
floating conversion when `R` is floating, the count truncated toward zero
(floor for non-negative, ceiling for negative) when `R` is integral and
the underlying count is floating (and the exact tick when it is integral),
and a build-time rejection for any other `R`. -/
theorem view_as_dispatch (v : TimeView) :
    v.as AsTarget.sameDuration = AsResult.unchangedDuration v.count ∧
    v.as AsTarget.floatingTy = AsResult.floatVal v.count.toFloat ∧
    v.as AsTarget.integralTy = AsResult.intVal
      (match v.count with
        | .ofFloat x => if 0 ≤ x then ⌊x⌋ else ⌈x⌉
        | .ofInt n => n) ∧
    v.as AsTarget.otherTy = AsResult.buildError := by
  obtain ⟨c⟩ := v
  cases c <;>
    exact ⟨rfl, rfl, rfl, rfl⟩

/-- Claim C6: when the callable raises, `timer::time` propagates the
failure unchanged (no record is delivered — the trace shows no result
placement), yet the `Timer` destructor has written the Duration slot with
end-minus-start before propagation, in both overloads. -/
theorem failure_propagates_slot_written {ε α : Type} (c : ℕ → ℚ) (e : ε) :
    (time (Except.error e : Callable ε α) (TState.fresh c)).1 =
      Except.error e ∧
    (time (Except.error e : Callable ε α) (TState.fresh c)).2.slot =
      some (c 1 - c 0) ∧
    (time (Except.error e : Callable ε α) (TState.fresh c)).2.trace =
      [Ev.readClock (c 0), Ev.invoke, Ev.raised, Ev.readClock (c 1),
        Ev.writeSlot (c 1 - c 0)] ∧
    (timeVoid (Except.error e : Callable ε Unit) (TState.fresh c)).1 =
      Except.error e ∧
    (timeVoid (Except.error e : Callable ε Unit) (TState.fresh c)).2.slot =
      some (c 1 - c 0) := by
  exact ⟨rfl, rfl, rfl, rfl, rfl⟩

/-- Claim C7: when the callable returns a value, the record returned by
`timer::time` captures exactly that value together with the measured
elapsed Duration, and the result is placed into the record by move
(`static_cast<ResultType&&>`), as the final placement event of the trace
records. -/
theorem result_captured_and_moved {ε α : Type} (c : ℕ → ℚ) (a : α) :
    (time (Except.ok a : Callable ε α) (TState.fresh c)).1 =
      Except.ok (TimeResult.mk a (c 1 - c 0)) ∧
    ((time (Except.ok a : Callable ε α) (TState.fresh c)).2.trace).getLast? =
      some (Ev.placeResult PlaceMode.byMove) := by
  exact ⟨rfl, rfl⟩

/-- Claim C8, counterexample: `Timer` declares no copy or move operations
and never deletes them, so the implicitly-declared copy constructor is
public and defaulted (a user-declared destructor only deprecates it), and
move construction falls back to it — `Timer` is formally both
copy-constructible and move-constructible. -/
theorem timer_class_formally_copyable :
    copyConstructible timerClassDecl = true ∧
    moveConstructible timerClassDecl = true := by
  exact ⟨rfl, rfl⟩

/-- Claim C8 (amended): `Timer`'s only declared constructor is private and
its friends are exactly the two `time` overloads, so external code cannot
create a `Timer`; it declares no copy or move operations and its
user-declared destructor suppresses the implicit move constructor — but
the implicitly-defaulted copy constructor is not deleted, so the type
stays formally copy-constructible for code already holding an instance
(which external code cannot obtain). -/
theorem timer_class_confinement :
    externallyConstructible timerClassDecl = false ∧
    timerClassDecl.friends = [FriendRef.timeNonVoidFn, FriendRef.timeVoidFn] ∧
    timerClassDecl.userCopy = none ∧
    timerClassDecl.userMove = none ∧
    implicitMoveDeclared timerClassDecl = false := by
  exact ⟨rfl, rfl, rfl, rfl, rfl⟩

end timer

